import Mathlib

/-!
Verification of the auth/session/permission core of the react-boilerplate
front end: a shallow embedding of the Token Store, the HTTP response
interceptor (401 refresh-and-retry), the AuthProvider session operations and
the permission hooks / PermissionGuard, with theorems settling the claims of
the specification about them.
-/

/-! ## Data model (src/types): Role and User, as used by the permission hooks -/

/-- A role: `permissions` is the list of permission strings
(`resource:action` convention). -/
structure Role where
  id : Nat
  name : String
  description : String
  permissions : List String
deriving DecidableEq, Repr

/-- A user as consumed by the auth context; `role` is the optionally embedded
role object. -/
structure User where
  id : Nat
  email : String
  firstName : String
  lastName : String
  roleId : Nat
  role : Option Role
  isActive : Bool
  emailVerified : Bool
deriving DecidableEq, Repr

/-! ## Permission hooks (contexts/auth.context: usePermission /
useAnyPermission / useAllPermissions)

Each hook reads `user` from the auth context; we pass it explicitly. The
source returns `false` when `!user || !user.role`, then tests membership in
`user.role.permissions`. -/

/-- `usePermission(permission)`: membership of a single permission in the
user role permission list. -/
def usePermission (user : Option User) (permission : String) : Bool :=
  match user with
  | none => false
  | some u =>
    match u.role with
    | none => false
    | some role => role.permissions.contains permission

/-- `useAnyPermission(permissions)`: `permissions.some(p => includes(p))`. -/
def useAnyPermission (user : Option User) (permissions : List String) : Bool :=
  match user with
  | none => false
  | some u =>
    match u.role with
    | none => false
    | some role => permissions.any (fun p => role.permissions.contains p)

/-- `useAllPermissions(permissions)`: `permissions.every(p => includes(p))`. -/
def useAllPermissions (user : Option User) (permissions : List String) : Bool :=
  match user with
  | none => false
  | some u =>
    match u.role with
    | none => false
    | some role => permissions.all (fun p => role.permissions.contains p)

/-! ## PermissionGuard (components/auth/PermissionGuard)

`hasPermission` starts `false`; if the `permission` prop is truthy it uses
`usePermission`; else if `permissions` is present and non-empty it uses
`useAllPermissions` when `requireAll` else `useAnyPermission`; children render
iff `hasPermission`. JS string truthiness: the empty string is falsy. -/

/-- The `else if (permissions && permissions.length > 0)` branch of
`PermissionGuard`. -/
def guardPermissionsBranch (user : Option User) (permissions : Option (List String))
    (requireAll : Bool) : Bool :=
  match permissions with
  | some ps =>
    if 0 < ps.length then
      if requireAll then useAllPermissions user ps else useAnyPermission user ps
    else false
  | none => false

/-- The value of `hasPermission` computed by `PermissionGuard` (children
render iff it is `true`; otherwise the fallback renders). -/
def permissionGuardCheck (user : Option User) (permission : Option String)
    (permissions : Option (List String)) (requireAll : Bool) : Bool :=
  match permission with
  | some p =>
    if p = "" then guardPermissionsBranch user permissions requireAll
    else usePermission user p
  | none => guardPermissionsBranch user permissions requireAll

/-- A user that contributes no permissions: absent user, absent role, or a
role whose permission list is empty. -/
def noEffectivePermissions (user : Option User) : Bool :=
  match user with
  | none => true
  | some u =>
    match u.role with
    | none => true
    | some role => role.permissions.isEmpty

/-- The user or its role is absent (`!user || !user.role` in the hooks). -/
def roleAbsent (user : Option User) : Bool :=
  match user with
  | none => true
  | some u => u.role.isNone

/-- Concrete user whose role exists but grants the empty permission set. -/
def emptyPermUser : User :=
  { id := 1, email := "a@x.com", firstName := "A", lastName := "X",
    roleId := 7,
    role := some { id := 7, name := "none", description := "", permissions := [] },
    isActive := true, emailVerified := true }

/-! ## Token Store (lib/api-client: getToken / getRefreshToken / setTokens /
clearTokens)

`localStorage` is modelled as a key-value map `String → Option String`; the
two storage keys are the configurable `VITE_JWT_STORAGE_KEY` /
`VITE_REFRESH_TOKEN_KEY` values (defaults `auth_token` / `refresh_token`). -/

/-- The browser key-value storage. -/
def LocalStorage : Type := String → Option String

/-- Deployment configuration: the two storage key names. -/
structure Env where
  jwtStorageKey : String
  refreshTokenKey : String
deriving DecidableEq

/-- The default env: `auth_token` / `refresh_token`. -/
def defaultEnv : Env :=
  { jwtStorageKey := "auth_token", refreshTokenKey := "refresh_token" }

/-- Storage with no entries. -/
def emptyStorage : LocalStorage := fun _ => none

/-- `localStorage.getItem`. -/
def getItem (s : LocalStorage) (k : String) : Option String := s k

/-- `localStorage.setItem`. -/
def setItem (s : LocalStorage) (k v : String) : LocalStorage :=
  fun q => if q = k then some v else s q

/-- `localStorage.removeItem`. -/
def removeItem (s : LocalStorage) (k : String) : LocalStorage :=
  fun q => if q = k then none else s q

/-- JS truthiness of a `string | null` value: `null` and `""` are falsy. -/
def truthy (v : Option String) : Bool :=
  match v with
  | some t => t != ""
  | none => false

/-- `getToken()`: read the access token. -/
def getToken (env : Env) (s : LocalStorage) : Option String :=
  getItem s env.jwtStorageKey

/-- `getRefreshToken()`: read the refresh token. -/
def getRefreshToken (env : Env) (s : LocalStorage) : Option String :=
  getItem s env.refreshTokenKey

/-- `setTokens(accessToken, refreshToken?)`: always writes the access token;
writes the refresh token only when the argument is present and truthy
(`if (refreshToken)` — the empty string is falsy, `undefined` is absent). -/
def setTokens (env : Env) (s : LocalStorage) (accessToken : String)
    (refreshToken : Option String) : LocalStorage :=
  let s1 := setItem s env.jwtStorageKey accessToken
  match refreshToken with
  | some r => if r = "" then s1 else setItem s1 env.refreshTokenKey r
  | none => s1

/-- `clearTokens()`: removes both keys. -/
def clearTokens (env : Env) (s : LocalStorage) : LocalStorage :=
  removeItem (removeItem s env.jwtStorageKey) env.refreshTokenKey

/-! ## HTTP response interceptor (lib/api-client)

One invocation of the response-error interceptor, as a pure function of the
storage, the transport error of the failed request, and the outcome the backend
refresh endpoint would give if called (`none` = the refresh call rejects).
The result records the new storage, whether the refresh endpoint was called,
whether the redirect-to-login side effect fired, and what the interceptor
returns/rejects with. -/

/-- Axios request config, restricted to the fields the interceptor touches:
the `_retry` mark and the `Authorization` header. -/
structure RequestCfg where
  retryFlag : Bool
  authHeader : Option String
deriving DecidableEq, Repr

/-- The `response.data` fields read by the error normalizer. -/
structure HttpResponseData where
  message : Option String
  code : Option String
  details : Option String
deriving DecidableEq, Repr

/-- An HTTP response attached to a transport error. -/
structure HttpResponse where
  status : Nat
  data : HttpResponseData
deriving DecidableEq, Repr

/-- An axios transport error: optional response, transport-level message,
and the originating request config. -/
structure TransportError where
  response : Option HttpResponse
  message : String
  config : RequestCfg
deriving DecidableEq, Repr

/-- The uniform `ApiError` shape surfaced to callers. -/
structure ApiError where
  message : String
  status : Nat
  code : Option String
  details : Option String
deriving DecidableEq, Repr

/-- The body of a successful `/auth/refresh-token` response: a new access
token and an optionally rotated refresh token. -/
structure RefreshResponseData where
  accessToken : String
  refreshToken : Option String
deriving DecidableEq, Repr

/-- What the interceptor resolves or rejects with. -/
inductive InterceptOutcome
  | retryRequest (req : RequestCfg)
  | rejectNoRefreshToken
  | rejectRefreshError
  | rejectApi (e : ApiError)
deriving DecidableEq, Repr

/-- Full effect record of one interceptor invocation. -/
structure InterceptResult where
  storage : LocalStorage
  refreshCalled : Bool
  redirectedToLogin : Bool
  outcome : InterceptOutcome

/-- `error.response?.status === 401`. -/
def is401 (e : TransportError) : Bool :=
  match e.response with
  | some r => r.status == 401
  | none => false

/-- JS `a || b` over an optional string `a` (empty string is falsy). -/
def jsOrStr (a : Option String) (b : String) : String :=
  match a with
  | some v => if v = "" then b else v
  | none => b

/-- The `ApiError` built from a transport error:
`message` is the body message, else the transport message, else the generic
text `An error occurred`;
`status: error.response?.status || 500`, plus optional `code`/`details`. -/
def normalizeError (e : TransportError) : ApiError :=
  { message := jsOrStr (e.response.bind (fun r => r.data.message))
      (jsOrStr (some e.message) "An error occurred"),
    status :=
      match e.response with
      | some r => if r.status = 0 then 500 else r.status
      | none => 500,
    code := e.response.bind (fun r => r.data.code),
    details := e.response.bind (fun r => r.data.details) }

/-- One invocation of the response-error interceptor. On a 401 whose request
is not yet marked `_retry`: mark it, read the refresh token (throwing when it
is falsy), call the refresh endpoint, and either store the new tokens and
re-issue the original request with the new bearer header, or clear tokens,
redirect to login and reject with the refresh error. Every other error is
normalized to `ApiError` and rejected. -/
def responseInterceptorError (env : Env) (s : LocalStorage) (e : TransportError)
    (refreshResult : Option RefreshResponseData) : InterceptResult :=
  if is401 e && !e.config.retryFlag then
    let req : RequestCfg := { e.config with retryFlag := true }
    if truthy (getRefreshToken env s) then
      match refreshResult with
      | some rr =>
        { storage := setTokens env s rr.accessToken rr.refreshToken,
          refreshCalled := true,
          redirectedToLogin := false,
          outcome := .retryRequest
            { req with authHeader := some ("Bearer " ++ rr.accessToken) } }
      | none =>
        { storage := clearTokens env s,
          refreshCalled := true,
          redirectedToLogin := true,
          outcome := .rejectRefreshError }
    else
      { storage := clearTokens env s,
        refreshCalled := false,
        redirectedToLogin := true,
        outcome := .rejectNoRefreshToken }
  else
    { storage := s,
      refreshCalled := false,
      redirectedToLogin := false,
      outcome := .rejectApi (normalizeError e) }

/-! ## AuthProvider session operations (contexts/auth.context)

React state `{user, isLoading}` plus the storage form the session state.
Backend calls are modelled by their outcome, passed as an argument
(`Except ApiError _` mirrors a promise that resolves or rejects with the
normalized error). -/

/-- The AuthProvider state together with the storage it reads/writes. -/
structure AuthState where
  user : Option User
  isLoading : Bool
  storage : LocalStorage

/-- Initial provider state: `useState<User|null>(null)`,
`useState(true)` for `isLoading`, over the given storage. -/
def initialState (s : LocalStorage) : AuthState :=
  { user := none, isLoading := true, storage := s }

/-- `isAuthenticated = !!user && !!getToken()`. -/
def isAuthenticated (env : Env) (st : AuthState) : Bool :=
  st.user.isSome && truthy (getToken env st.storage)

/-- The body of a successful login/register response as destructured by the
provider: `accessToken`, `refreshToken`, `user`, optional `message`. -/
structure LoginResponse where
  accessToken : String
  refreshToken : String
  user : User
  message : Option String
deriving DecidableEq, Repr

/-- `login(credentials)`: `setIsLoading(true)`; on a resolved backend call,
`setTokens(accessToken, refreshToken)` then `setUser(user)`; on a rejected
call the error is rethrown; `finally` sets `isLoading` to `false`. Returns
the outcome surfaced to the caller together with the new state. -/
def login (env : Env) (st : AuthState) (backend : Except ApiError LoginResponse) :
    Except ApiError Unit × AuthState :=
  let st1 : AuthState := { st with isLoading := true }
  match backend with
  | .ok resp =>
    let st2 : AuthState :=
      { st1 with storage := setTokens env st1.storage resp.accessToken (some resp.refreshToken) }
    let st3 : AuthState := { st2 with user := some resp.user }
    (.ok (), { st3 with isLoading := false })
  | .error e =>
    (.error e, { st1 with isLoading := false })

/-- `logout()`: `setIsLoading(true)`; calls the backend logout inside
`try`/`catch` (a failure is only logged); the `finally` block runs
`clearTokens()`, `setUser(null)`, `setIsLoading(false)` in every case. -/
def logout (env : Env) (st : AuthState) (backend : Except ApiError Unit) : AuthState :=
  let st1 : AuthState := { st with isLoading := true }
  match backend with
  | .ok _ =>
    { st1 with storage := clearTokens env st1.storage, user := none, isLoading := false }
  | .error _ =>
    { st1 with storage := clearTokens env st1.storage, user := none, isLoading := false }

/-- `initializeAuth()`: reads `getToken()`; when truthy, fetches the profile
— on success `setUser(userData)`, on failure `clearTokens()` and
`setUser(null)`; when falsy, no fetch happens; in every case
`setIsLoading(false)` runs. The boolean in the result records whether the
profile fetch was attempted. -/
def initializeAuth (env : Env) (st : AuthState)
    (profileResult : Except ApiError User) : AuthState × Bool :=
  match getToken env st.storage with
  | some t =>
    if t = "" then ({ st with isLoading := false }, false)
    else
      match profileResult with
      | .ok u => ({ st with user := some u, isLoading := false }, true)
      | .error _ =>
        ({ st with
            storage := clearTokens env st.storage
            user := none
            isLoading := false }, true)
  | none => ({ st with isLoading := false }, false)

/-! ## Helper lemmas -/

/-- On a non-empty list, `all` implies `any` (same predicate). -/
lemma list_all_imp_any {α : Type} (p : α → Bool) (xs : List α)
    (hne : xs ≠ []) (h : xs.all p = true) : xs.any p = true := by
  match xs with
  | [] => exact absurd rfl hne
  | a :: l =>
    simp only [List.all_cons, Bool.and_eq_true] at h
    simp [List.any_cons, h.1]

/-- A user with no effective permissions fails every single-permission
check. -/
lemma usePermission_noEffective (u : Option User) (p : String)
    (h : noEffectivePermissions u = true) : usePermission u p = false := by
  match u with
  | none => rfl
  | some x =>
    match hx : x.role with
    | none => simp [usePermission, hx]
    | some role =>
      simp only [noEffectivePermissions, hx, List.isEmpty_iff] at h
      simp [usePermission, hx, h]

/-- A user with no effective permissions fails every ANY check. -/
lemma useAnyPermission_noEffective (u : Option User) (R : List String)
    (h : noEffectivePermissions u = true) : useAnyPermission u R = false := by
  match u with
  | none => rfl
  | some x =>
    match hx : x.role with
    | none => simp [useAnyPermission, hx]
    | some role =>
      simp only [noEffectivePermissions, hx, List.isEmpty_iff] at h
      simp [useAnyPermission, hx, h]

/-- A user with no effective permissions fails every ALL check on a
non-empty required list; a user with an absent role fails it on every
required list. -/
lemma useAllPermissions_noEffective (u : Option User) (R : List String)
    (h : noEffectivePermissions u = true)
    (hR : roleAbsent u = true ∨ R ≠ []) : useAllPermissions u R = false := by
  match u with
  | none => rfl
  | some x =>
    match hx : x.role with
    | none => simp [useAllPermissions, hx]
    | some role =>
      simp only [noEffectivePermissions, hx, List.isEmpty_iff] at h
      rcases hR with habs | hne
      · simp [roleAbsent, hx] at habs
      · match R with
        | [] => exact absurd rfl hne
        | q :: l => simp [useAllPermissions, hx, h]

/-- The permissions branch of the guard is false for a user with no
effective permissions (the branch only runs ALL mode on non-empty lists). -/
lemma guardPermissionsBranch_noEffective (u : Option User)
    (perms : Option (List String)) (requireAll : Bool)
    (h : noEffectivePermissions u = true) :
    guardPermissionsBranch u perms requireAll = false := by
  match perms with
  | none => rfl
  | some ps =>
    match ps with
    | [] => simp [guardPermissionsBranch]
    | q :: l =>
      show (if 0 < (q :: l).length then
          if requireAll then useAllPermissions u (q :: l)
          else useAnyPermission u (q :: l)
        else false) = false
      rw [if_pos (by simp)]
      cases requireAll
      · simpa using useAnyPermission_noEffective u (q :: l) h
      · simpa using useAllPermissions_noEffective u (q :: l) h (Or.inr (by simp))

/-! ## Claims about the Permission Evaluator -/

/-- Claim C1 (amended): fails-closed permission evaluation. A user whose
user object or role is absent satisfies no permission check for every
required list, including the empty list; a user whose role exists but has an
empty permission set satisfies no single check, no ANY check, and no ALL
check on a non-empty required list (the ALL check on the empty required list
is vacuously true for such a user); PermissionGuard evaluates to false for
every configuration for both kinds of user. -/
theorem perm_checks_fail_closed (u : Option User) (p : String)
    (R : List String) (perm : Option String) (perms : Option (List String))
    (requireAll : Bool) (h : noEffectivePermissions u = true) :
    usePermission u p = false ∧
    useAnyPermission u R = false ∧
    (roleAbsent u = true ∨ R ≠ [] → useAllPermissions u R = false) ∧
    permissionGuardCheck u perm perms requireAll = false := by
  refine ⟨usePermission_noEffective u p h, useAnyPermission_noEffective u R h,
    fun hR => useAllPermissions_noEffective u R h hR, ?_⟩
  match perm with
  | none => exact guardPermissionsBranch_noEffective u perms requireAll h
  | some q =>
    show (if q = "" then guardPermissionsBranch u perms requireAll
      else usePermission u q) = false
    by_cases hq : q = ""
    · rw [if_pos hq]; exact guardPermissionsBranch_noEffective u perms requireAll h
    · rw [if_neg hq]; exact usePermission_noEffective u q h

/-- Witness for `perm_checks_fail_closed` at a concrete user with an absent
role and concrete inputs. -/
theorem perm_checks_fail_closed_witness :
    noEffectivePermissions (some emptyPermUser) = true ∧
    (usePermission (some emptyPermUser) "user:read" = false ∧
     useAnyPermission (some emptyPermUser) ["user:read", "role:write"] = false ∧
     (roleAbsent (some emptyPermUser) = true ∨ ["user:read"] ≠ ([] : List String) →
       useAllPermissions (some emptyPermUser) ["user:read"] = false) ∧
     permissionGuardCheck (some emptyPermUser) (some "user:read")
       (some ["role:write"]) true = false) := by
  constructor
  · decide
  · have h := perm_checks_fail_closed (some emptyPermUser) "user:read"
      ["user:read", "role:write"] (some "user:read") (some ["role:write"]) true
      (by decide)
    exact ⟨h.1, h.2.1, fun _ => by decide, h.2.2.2⟩

/-- Counterexample to claim C1 as stated: for a user whose role exists but
whose permission set is empty, the ALL-mode hook on the empty required list
evaluates to true (vacuous `Array.prototype.every`), not false. -/
theorem useAllPermissions_empty_required_cex :
    useAllPermissions (some emptyPermUser) [] = true := by decide

/-- Claim C2: for every user permission state and non-empty required list,
the ALL-mode check implies the ANY-mode check. -/
theorem useAll_imp_useAny (u : Option User) (R : List String) (hR : R ≠ [])
    (h : useAllPermissions u R = true) : useAnyPermission u R = true := by
  match u with
  | none => simp [useAllPermissions] at h
  | some x =>
    match hx : x.role with
    | none => simp [useAllPermissions, hx] at h
    | some role =>
      simp only [useAllPermissions, hx] at h
      simp only [useAnyPermission, hx]
      exact list_all_imp_any _ R hR h

/-- Concrete user holding the `user:read` and `user:write` permissions. -/
def readerUser : User :=
  { id := 2, email := "b@x.com", firstName := "B", lastName := "X",
    roleId := 8,
    role := some { id := 8, name := "reader", description := "", permissions := ["user:read", "user:write"] },
    isActive := true, emailVerified := true }

/-- Witness for `useAll_imp_useAny` at a concrete user and required list. -/
theorem useAll_imp_useAny_witness :
    (["user:read"] : List String) ≠ [] ∧
    useAnyPermission (some readerUser) ["user:read"] = true := by
  constructor
  · decide
  · exact useAll_imp_useAny _ ["user:read"] (by decide) (by decide)

/-! ## Claims about the HTTP response interceptor -/

/-- Claim C3: at-most-one retry per request. For a 401 response on an
unretried request with a refresh token in store and a successful refresh
call, the interceptor performs exactly one refresh call and re-issues the
original request exactly once, with the `_retry` mark set and the new bearer
token; and for any error whose request already carries the `_retry` mark
(in particular a second 401 on the retried request), no refresh call and no
retry happen — the error is simply normalized and rejected. -/
theorem interceptor_single_retry (env : Env) (s : LocalStorage)
    (e : TransportError) (rr : RefreshResponseData)
    (h401 : is401 e = true) (hretry : e.config.retryFlag = false)
    (hrt : truthy (getRefreshToken env s) = true) :
    (responseInterceptorError env s e (some rr)).refreshCalled = true ∧
    (responseInterceptorError env s e (some rr)).outcome =
      .retryRequest { retryFlag := true, authHeader := some ("Bearer " ++ rr.accessToken) } ∧
    (∀ (s2 : LocalStorage) (e2 : TransportError) (rres2 : Option RefreshResponseData),
      e2.config.retryFlag = true →
        (responseInterceptorError env s2 e2 rres2).refreshCalled = false ∧
        (responseInterceptorError env s2 e2 rres2).outcome = .rejectApi (normalizeError e2)) := by
  refine ⟨?_, ?_, ?_⟩
  · simp [responseInterceptorError, h401, hretry, hrt]
  · simp [responseInterceptorError, h401, hretry, hrt]
  · intro s2 e2 rres2 h2
    constructor <;> simp [responseInterceptorError, h2]

/-- Concrete 401 transport error on an unretried request. -/
def errFirst401 : TransportError :=
  { response := some { status := 401, data := { message := none, code := none, details := none } },
    message := "Request failed with status code 401",
    config := { retryFlag := false, authHeader := some "Bearer acc" } }

/-- Concrete storage holding access token `acc` and refresh token `ref`. -/
def storedStorage : LocalStorage :=
  setTokens defaultEnv emptyStorage "acc" (some "ref")

/-- Concrete successful refresh-endpoint response body. -/
def refreshOk : RefreshResponseData :=
  { accessToken := "acc2", refreshToken := some "ref2" }

/-- Witness for `interceptor_single_retry` at concrete inputs. -/
theorem interceptor_single_retry_witness :
    (is401 errFirst401 = true ∧ errFirst401.config.retryFlag = false ∧
     truthy (getRefreshToken defaultEnv storedStorage) = true) ∧
    ((responseInterceptorError defaultEnv storedStorage errFirst401 (some refreshOk)).refreshCalled = true ∧
     (responseInterceptorError defaultEnv storedStorage errFirst401 (some refreshOk)).outcome =
       .retryRequest { retryFlag := true, authHeader := some ("Bearer " ++ refreshOk.accessToken) } ∧
     (∀ (s2 : LocalStorage) (e2 : TransportError) (rres2 : Option RefreshResponseData),
       e2.config.retryFlag = true →
         (responseInterceptorError defaultEnv s2 e2 rres2).refreshCalled = false ∧
         (responseInterceptorError defaultEnv s2 e2 rres2).outcome = .rejectApi (normalizeError e2))) :=
  ⟨⟨by decide, by decide, by decide⟩,
   interceptor_single_retry defaultEnv storedStorage errFirst401 refreshOk
     (by decide) (by decide) (by decide)⟩

/-- Claim C4: on a 401 for an unretried request with no (truthy) refresh
token in store, the refresh endpoint is not called, the interceptor rejects
with the `No refresh token available` unauthenticated error, and the
redirect-to-login side effect fires. -/
theorem interceptor_no_refresh_token (env : Env) (s : LocalStorage)
    (e : TransportError) (rres : Option RefreshResponseData)
    (h401 : is401 e = true) (hretry : e.config.retryFlag = false)
    (hrt : truthy (getRefreshToken env s) = false) :
    (responseInterceptorError env s e rres).refreshCalled = false ∧
    (responseInterceptorError env s e rres).outcome = .rejectNoRefreshToken ∧
    (responseInterceptorError env s e rres).redirectedToLogin = true := by
  refine ⟨?_, ?_, ?_⟩ <;> simp [responseInterceptorError, h401, hretry, hrt]

/-- Witness for `interceptor_no_refresh_token` at concrete inputs (empty
storage: no refresh token stored). -/
theorem interceptor_no_refresh_token_witness :
    (is401 errFirst401 = true ∧ errFirst401.config.retryFlag = false ∧
     truthy (getRefreshToken defaultEnv emptyStorage) = false) ∧
    ((responseInterceptorError defaultEnv emptyStorage errFirst401 none).refreshCalled = false ∧
     (responseInterceptorError defaultEnv emptyStorage errFirst401 none).outcome = .rejectNoRefreshToken ∧
     (responseInterceptorError defaultEnv emptyStorage errFirst401 none).redirectedToLogin = true) :=
  ⟨⟨by decide, by decide, by decide⟩,
   interceptor_no_refresh_token defaultEnv emptyStorage errFirst401 none
     (by decide) (by decide) (by decide)⟩

/-- Claim C5: outside the 401-refresh-retry path, every failed response is
rejected with the normalized `ApiError` shape — never the raw transport
error; when no response exists the status defaults to 500 and the message
falls back to the transport message (or the generic text); when a response
exists but carries no body message, the message likewise falls back to the
transport message. -/
theorem interceptor_normalizes_errors (env : Env) (s : LocalStorage)
    (e : TransportError) (rres : Option RefreshResponseData)
    (h : (is401 e && !e.config.retryFlag) = false) :
    (responseInterceptorError env s e rres).outcome = .rejectApi (normalizeError e) ∧
    (e.response = none → (normalizeError e).status = 500 ∧
      (normalizeError e).message = jsOrStr (some e.message) "An error occurred") ∧
    (∀ r, e.response = some r → r.data.message = none →
      (normalizeError e).message = jsOrStr (some e.message) "An error occurred") := by
  refine ⟨?_, ?_, ?_⟩
  · simp [responseInterceptorError, h]
  · intro hn
    simp [normalizeError, hn, jsOrStr]
  · intro r hr hm
    simp [normalizeError, hr, hm, jsOrStr]

/-- Concrete 500 transport error with a response that has no body message. -/
def errServer500 : TransportError :=
  { response := some { status := 500, data := { message := none, code := none, details := none } },
    message := "Request failed with status code 500",
    config := { retryFlag := false, authHeader := none } }

/-- Witness for `interceptor_normalizes_errors` at a concrete non-401
error. -/
theorem interceptor_normalizes_errors_witness :
    (is401 errServer500 && !errServer500.config.retryFlag) = false ∧
    ((responseInterceptorError defaultEnv emptyStorage errServer500 none).outcome =
       .rejectApi (normalizeError errServer500) ∧
     (errServer500.response = none → (normalizeError errServer500).status = 500 ∧
       (normalizeError errServer500).message = jsOrStr (some errServer500.message) "An error occurred") ∧
     (∀ r, errServer500.response = some r → r.data.message = none →
       (normalizeError errServer500).message = jsOrStr (some errServer500.message) "An error occurred")) :=
  ⟨by decide,
   interceptor_normalizes_errors defaultEnv emptyStorage errServer500 none (by decide)⟩

/-! ## Claims about the Token Store -/

/-- Claim C6 (amended): Token Store round-trip. For distinct configured
storage keys, after `setTokens(a, b)` with a non-empty `b`, `getToken()`
returns `a` and `getRefreshToken()` returns `b` (for every `a`, including
the empty string); after `clearTokens()` both return absent. (For `b = ""`
the refresh key is not written — the empty string is falsy — so the
round-trip for the refresh token fails there.) -/
theorem tokenStore_roundtrip (env : Env) (s : LocalStorage) (a b : String)
    (hk : env.jwtStorageKey ≠ env.refreshTokenKey) (hb : b ≠ "") :
    getToken env (setTokens env s a (some b)) = some a ∧
    getRefreshToken env (setTokens env s a (some b)) = some b ∧
    getToken env (clearTokens env s) = none ∧
    getRefreshToken env (clearTokens env s) = none := by
  refine ⟨?_, ?_, ?_, ?_⟩ <;>
    simp [getToken, getRefreshToken, getItem, setTokens, setItem, clearTokens,
      removeItem, hb, hk]

/-- Witness for `tokenStore_roundtrip` at the default keys and concrete
tokens. -/
theorem tokenStore_roundtrip_witness :
    (defaultEnv.jwtStorageKey ≠ defaultEnv.refreshTokenKey ∧ "b0" ≠ "") ∧
    (getToken defaultEnv (setTokens defaultEnv emptyStorage "a0" (some "b0")) = some "a0" ∧
     getRefreshToken defaultEnv (setTokens defaultEnv emptyStorage "a0" (some "b0")) = some "b0" ∧
     getToken defaultEnv (clearTokens defaultEnv emptyStorage) = none ∧
     getRefreshToken defaultEnv (clearTokens defaultEnv emptyStorage) = none) :=
  ⟨⟨by decide, by decide⟩,
   tokenStore_roundtrip defaultEnv emptyStorage "a0" "b0" (by decide) (by decide)⟩

/-- Counterexample to claim C6 as stated: with `b = ""` (a token string),
after `setTokens(a, b)` the refresh token read-back is absent, not `b` —
`if (refreshToken)` skips the falsy empty string. -/
theorem tokenStore_roundtrip_cex :
    getRefreshToken defaultEnv (setTokens defaultEnv emptyStorage "x" (some "")) = none ∧
    getRefreshToken defaultEnv (setTokens defaultEnv emptyStorage "x" (some "")) ≠ some "" := by
  constructor <;> decide

/-- Claim C10: frame property of `setTokens` with the refresh argument
omitted or the empty string: only the access token is overwritten; the
stored refresh token reads back exactly as before the call. -/
theorem setTokens_frame (env : Env) (s : LocalStorage) (a : String)
    (hk : env.jwtStorageKey ≠ env.refreshTokenKey) :
    getToken env (setTokens env s a none) = some a ∧
    getRefreshToken env (setTokens env s a none) = getRefreshToken env s ∧
    getToken env (setTokens env s a (some "")) = some a ∧
    getRefreshToken env (setTokens env s a (some "")) = getRefreshToken env s := by
  have hk2 : env.refreshTokenKey ≠ env.jwtStorageKey := fun h => hk h.symm
  refine ⟨?_, ?_, ?_, ?_⟩ <;>
    simp [getToken, getRefreshToken, getItem, setTokens, setItem, hk2]

/-- Witness for `setTokens_frame` at the default keys over a storage that
already holds a refresh token. -/
theorem setTokens_frame_witness :
    defaultEnv.jwtStorageKey ≠ defaultEnv.refreshTokenKey ∧
    (getToken defaultEnv (setTokens defaultEnv storedStorage "a1" none) = some "a1" ∧
     getRefreshToken defaultEnv (setTokens defaultEnv storedStorage "a1" none) =
       getRefreshToken defaultEnv storedStorage ∧
     getToken defaultEnv (setTokens defaultEnv storedStorage "a1" (some "")) = some "a1" ∧
     getRefreshToken defaultEnv (setTokens defaultEnv storedStorage "a1" (some "")) =
       getRefreshToken defaultEnv storedStorage) :=
  ⟨by decide, setTokens_frame defaultEnv storedStorage "a1" (by decide)⟩

/-! ## Claims about the Session Context -/

/-- Claim C7: logout postcondition regardless of prior state. Whatever the
prior session state and whether the backend logout call resolves or rejects,
after `logout()` the Token Store holds no access or refresh token, the user
is `null`, loading has ended, and the session is anonymous. -/
theorem logout_clears_session (env : Env) (st : AuthState)
    (backend : Except ApiError Unit) :
    (logout env st backend).user = none ∧
    (logout env st backend).isLoading = false ∧
    getToken env (logout env st backend).storage = none ∧
    getRefreshToken env (logout env st backend).storage = none ∧
    isAuthenticated env (logout env st backend) = false := by
  cases backend <;>
    simp [logout, isAuthenticated, getToken, getRefreshToken, getItem,
      clearTokens, removeItem, truthy]

/-- Claim C8: login contract. On a resolved backend call the returned token
pair is stored, the returned user is set and the session is authenticated;
on a rejected call the error is rethrown, the user and the Token Store are
untouched, and a previously anonymous session stays anonymous. -/
theorem login_contract (env : Env) (st : AuthState) (resp : LoginResponse)
    (err : ApiError) (hk : env.jwtStorageKey ≠ env.refreshTokenKey)
    (ha : resp.accessToken ≠ "") (hr : resp.refreshToken ≠ "") :
    ((login env st (.ok resp)).1 = .ok () ∧
     (login env st (.ok resp)).2.user = some resp.user ∧
     getToken env (login env st (.ok resp)).2.storage = some resp.accessToken ∧
     getRefreshToken env (login env st (.ok resp)).2.storage = some resp.refreshToken ∧
     (login env st (.ok resp)).2.isLoading = false ∧
     isAuthenticated env (login env st (.ok resp)).2 = true) ∧
    ((login env st (.error err)).1 = .error err ∧
     (login env st (.error err)).2.user = st.user ∧
     (login env st (.error err)).2.storage = st.storage ∧
     (login env st (.error err)).2.isLoading = false ∧
     (st.user = none → isAuthenticated env (login env st (.error err)).2 = false)) := by
  constructor
  · refine ⟨rfl, rfl, ?_, ?_, rfl, ?_⟩ <;>
      simp [login, isAuthenticated, getToken, getRefreshToken, getItem,
        setTokens, setItem, truthy, hk, ha, hr]
  · refine ⟨rfl, rfl, rfl, rfl, ?_⟩
    intro hu
    simp [login, isAuthenticated, hu]

/-- Concrete successful login response. -/
def loginResp : LoginResponse :=
  { accessToken := "acc", refreshToken := "ref", user := readerUser,
    message := some "Login successful" }

/-- Concrete rejected login error. -/
def loginErr : ApiError :=
  { message := "Invalid credentials", status := 401, code := none, details := none }

/-- Witness for `login_contract` at the default keys, the initial anonymous
state over empty storage, and concrete backend outcomes. -/
theorem login_contract_witness :
    (defaultEnv.jwtStorageKey ≠ defaultEnv.refreshTokenKey ∧
     loginResp.accessToken ≠ "" ∧ loginResp.refreshToken ≠ "") ∧
    (((login defaultEnv (initialState emptyStorage) (.ok loginResp)).1 = .ok () ∧
      (login defaultEnv (initialState emptyStorage) (.ok loginResp)).2.user = some loginResp.user ∧
      getToken defaultEnv (login defaultEnv (initialState emptyStorage) (.ok loginResp)).2.storage = some loginResp.accessToken ∧
      getRefreshToken defaultEnv (login defaultEnv (initialState emptyStorage) (.ok loginResp)).2.storage = some loginResp.refreshToken ∧
      (login defaultEnv (initialState emptyStorage) (.ok loginResp)).2.isLoading = false ∧
      isAuthenticated defaultEnv (login defaultEnv (initialState emptyStorage) (.ok loginResp)).2 = true) ∧
     ((login defaultEnv (initialState emptyStorage) (.error loginErr)).1 = .error loginErr ∧
      (login defaultEnv (initialState emptyStorage) (.error loginErr)).2.user = (initialState emptyStorage).user ∧
      (login defaultEnv (initialState emptyStorage) (.error loginErr)).2.storage = (initialState emptyStorage).storage ∧
      (login defaultEnv (initialState emptyStorage) (.error loginErr)).2.isLoading = false ∧
      ((initialState emptyStorage).user = none →
        isAuthenticated defaultEnv (login defaultEnv (initialState emptyStorage) (.error loginErr)).2 = false))) :=
  ⟨⟨by decide, by decide, by decide⟩,
   login_contract defaultEnv (initialState emptyStorage) loginResp loginErr
     (by decide) (by decide) (by decide)⟩

/-- Claim C9: initialization state machine. Starting from the initial
provider state over any storage: when the stored access token is absent (or
falsy), no profile fetch is attempted and the session is anonymous; when it
is present and the profile fetch succeeds, the session is authenticated with
that user; when it is present and the fetch fails, all tokens are cleared
and the session is anonymous; in every case loading ends. -/
theorem initializeAuth_state_machine (env : Env) (s : LocalStorage)
    (r : Except ApiError User) :
    ((initializeAuth env (initialState s) r).1.isLoading = false) ∧
    (truthy (getToken env s) = false →
      (initializeAuth env (initialState s) r).2 = false ∧
      (initializeAuth env (initialState s) r).1.user = none ∧
      isAuthenticated env (initializeAuth env (initialState s) r).1 = false) ∧
    (∀ u, truthy (getToken env s) = true → r = .ok u →
      (initializeAuth env (initialState s) r).2 = true ∧
      (initializeAuth env (initialState s) r).1.user = some u ∧
      isAuthenticated env (initializeAuth env (initialState s) r).1 = true) ∧
    (∀ ae, truthy (getToken env s) = true → r = .error ae →
      (initializeAuth env (initialState s) r).2 = true ∧
      (initializeAuth env (initialState s) r).1.user = none ∧
      getToken env (initializeAuth env (initialState s) r).1.storage = none ∧
      getRefreshToken env (initializeAuth env (initialState s) r).1.storage = none ∧
      isAuthenticated env (initializeAuth env (initialState s) r).1 = false) := by
  match hgt : getToken env s with
  | none =>
    have hs : s env.jwtStorageKey = none := hgt
    refine ⟨?_, ?_, ?_, ?_⟩
    · simp [initializeAuth, initialState, getToken, getItem, hs]
    · intro _
      simp [initializeAuth, initialState, isAuthenticated, getToken, getItem, hs]
    · intro u hT _
      simp [hgt, truthy] at hT
    · intro ae hT _
      simp [hgt, truthy] at hT
  | some t =>
    have hs : s env.jwtStorageKey = some t := hgt
    by_cases ht : t = ""
    · subst ht
      refine ⟨?_, ?_, ?_, ?_⟩
      · simp [initializeAuth, initialState, getToken, getItem, hs]
      · intro _
        simp [initializeAuth, initialState, isAuthenticated, getToken, getItem,
          hs, truthy]
      · intro u hT _
        simp [hgt, truthy] at hT
      · intro ae hT _
        simp [hgt, truthy] at hT
    · refine ⟨?_, ?_, ?_, ?_⟩
      · cases r <;> simp [initializeAuth, initialState, getToken, getItem, hs, ht]
      · intro hT
        simp [hgt, truthy, ht] at hT
      · intro u _ hr
        subst hr
        simp [initializeAuth, initialState, isAuthenticated, getToken, getItem,
          hs, ht, truthy]
      · intro ae _ hr
        subst hr
        simp [initializeAuth, initialState, isAuthenticated, getToken,
          getRefreshToken, getItem, clearTokens, removeItem, hs, ht, truthy]

/-- Witness for `initializeAuth_state_machine`: token present and profile
fetch succeeding, at concrete inputs. -/
theorem initializeAuth_state_machine_witness :
    truthy (getToken defaultEnv storedStorage) = true ∧
    ((initializeAuth defaultEnv (initialState storedStorage) (.ok readerUser)).2 = true ∧
     (initializeAuth defaultEnv (initialState storedStorage) (.ok readerUser)).1.user = some readerUser ∧
     isAuthenticated defaultEnv (initializeAuth defaultEnv (initialState storedStorage) (.ok readerUser)).1 = true) :=
  ⟨by decide,
   (initializeAuth_state_machine defaultEnv storedStorage (.ok readerUser)).2.2.1
     readerUser (by decide) rfl⟩
